import Mathlib

/-!
Shallow embedding of `src/elasticsearch_setup/setup_indices.py` from the
escompliance-agent repository.

The script is a one-shot provisioner for four Elasticsearch indices.  Its
effects are calls against a remote cluster and reads of local schema files.
We embed the external world explicitly:

* `Cluster` is the remote cluster state: the list of index names it holds,
  whether it is reachable (`es.info()` succeeds), and which index names the
  remote side would fail to create or delete (modelling the exceptions the
  Python `try` blocks catch).
* `SchemaDir` is the local `indices/` directory: an association list from
  file name to `FileState` (absent, unparsable JSON, or a parsed schema,
  the schema body itself kept abstract as a string passed through verbatim).
* Every operation returns its Python return value together with the new
  cluster state and the trace of Elasticsearch API calls it issued, so that
  "no creation call is issued" and "attempts every entry" are statable.

All structures derive `DecidableEq` so closed statements evaluate.
-/

/-- One Elasticsearch API call, as issued by the Python client:
`es.info()`, `es.indices.exists(...)`, `es.indices.create(...)`,
`es.indices.get(index="*")`, `es.indices.delete(...)`. -/
inductive ESCall where
  | info : ESCall
  | existsCheck : String → ESCall
  | create : String → String → ESCall
  | getAll : ESCall
  | delete : String → ESCall
deriving DecidableEq, Repr

/-- Remote cluster state. `indices` is what the cluster holds; `reachable`
is whether `es.info()` succeeds; `failCreates` / `failDeletes` list index
names for which the remote create / delete call raises (the exceptions the
Python code catches). -/
structure Cluster where
  indices : List String
  reachable : Bool
  failCreates : List String
  failDeletes : List String
deriving DecidableEq, Repr

/-- State of one schema file in the local `indices/` directory. -/
inductive FileState where
  | absent : FileState
  | invalid : FileState
  | valid : String → FileState
deriving DecidableEq, Repr

/-- The local schema directory `self.indices_dir`. -/
structure SchemaDir where
  files : List (String × FileState)
deriving DecidableEq, Repr

/-- Resolving a schema file name in the directory (a missing entry is an
absent file). -/
def SchemaDir.fileState (d : SchemaDir) (name : String) : FileState :=
  match d.files.lookup name with
  | some st => st
  | none => FileState.absent

/-- Python's `str.split(":")` on a character list: splits at every colon,
keeping empty segments, and a list with no colon yields one segment. -/
def splitOnColon : List Char → List (List Char)
  | [] => [[]]
  | c :: rest =>
      let r := splitOnColon rest
      if c = ':' then [] :: r
      else
        match r with
        | [] => [[c]]
        | s :: ss => (c :: s) :: ss

/-- The credential shape passed to the `Elasticsearch` client constructor:
either the `(id, secret)` tuple or the raw key string. -/
inductive ApiKeyCred where
  | pair : String → String → ApiKeyCred
  | single : String → ApiKeyCred
deriving DecidableEq, Repr

/-- `(key.split(":")[0], key.split(":")[1]) if ":" in key else key` from
`ElasticsearchSetup.__init__`. -/
def parseApiKey (key : String) : ApiKeyCred :=
  if key.toList.contains ':' then
    ApiKeyCred.pair
      (String.mk ((splitOnColon key.toList).getD 0 []))
      (String.mk ((splitOnColon key.toList).getD 1 []))
  else
    ApiKeyCred.single key

/-- The error message of the `ValueError` raised by `__init__`. -/
def configErrorMsg : String :=
  "ELASTICSEARCH_URL and ELASTICSEARCH_API_KEY must be set in .env"

/-- The successfully constructed provisioner: endpoint URL and the parsed
credential handed to the client. -/
structure ElasticsearchSetup where
  es_url : String
  cred : ApiKeyCred
deriving DecidableEq, Repr

/-- `os.getenv` over a process environment modelled as an association
list. -/
def getenv (env : List (String × String)) (name : String) : Option String :=
  env.lookup name

/-- Python truthiness of `os.getenv`'s result: `None` and `""` are falsy. -/
def truthy : Option String → Bool
  | none => false
  | some s => !s.isEmpty

/-- `ElasticsearchSetup.__init__`: reads `ELASTICSEARCH_URL` and
`ELASTICSEARCH_API_KEY`; if either is falsy raises `ValueError`; otherwise
builds the client credential.  The constructor issues no Elasticsearch API
call (the client object is created lazily), hence the empty trace. -/
def ElasticsearchSetup.init (env : List (String × String)) :
    Except String ElasticsearchSetup × List ESCall :=
  let es_url := getenv env "ELASTICSEARCH_URL"
  let es_api_key := getenv env "ELASTICSEARCH_API_KEY"
  if !truthy es_url || !truthy es_api_key then
    (Except.error configErrorMsg, [])
  else
    (Except.ok ⟨es_url.getD "", parseApiKey (es_api_key.getD "")⟩, [])

/-- Result of one provisioner operation: the Python return value, the
cluster state afterwards, and the API calls issued. -/
structure OpResult where
  ok : Bool
  cluster : Cluster
  calls : List ESCall
deriving DecidableEq, Repr

/-- `ElasticsearchSetup.test_connection`: `es.info()` succeeds iff the
cluster is reachable; the exception is caught and `False` returned. -/
def test_connection (c : Cluster) : OpResult :=
  ⟨c.reachable, c, [ESCall.info]⟩

/-- `ElasticsearchSetup.create_index(index_name, schema_file)`:
resolve the schema file (missing → `False`, no API call), parse it
(malformed → `False`, no API call), check existence (present → warn and
`True`), otherwise issue the creation call (remote failure caught →
`False`). -/
def create_index (d : SchemaDir) (c : Cluster) (index_name schema_file : String) :
    OpResult :=
  match d.fileState schema_file with
  | FileState.absent => ⟨false, c, []⟩
  | FileState.invalid => ⟨false, c, []⟩
  | FileState.valid schema =>
      if c.indices.contains index_name then
        ⟨true, c, [ESCall.existsCheck index_name]⟩
      else if c.failCreates.contains index_name then
        ⟨false, c, [ESCall.existsCheck index_name, ESCall.create index_name schema]⟩
      else
        ⟨true, { c with indices := c.indices ++ [index_name] },
          [ESCall.existsCheck index_name, ESCall.create index_name schema]⟩

/-- The fixed `indices` dict of `setup_all_indices`, in insertion order. -/
def indicesList : List (String × String) :=
  [("regulations", "regulations.json"),
   ("permits", "permits.json"),
   ("inspections", "inspections.json"),
   ("compliance_events", "compliance_events.json")]

/-- `ElasticsearchSetup.setup_all_indices`: test the connection (failure
aborts with `False`); otherwise run `create_index` for each entry of the
dict in order, and-ing the results (`all_success`). -/
def setup_all_indices (d : SchemaDir) (c : Cluster) : OpResult :=
  let t := test_connection c
  if !t.ok then
    ⟨false, t.cluster, t.calls⟩
  else
    indicesList.foldl
      (fun acc entry =>
        let r := create_index d acc.cluster entry.1 entry.2
        ⟨acc.ok && r.ok, r.cluster, acc.calls ++ r.calls⟩)
      ⟨true, t.cluster, t.calls⟩

/-- `ElasticsearchSetup.list_indices`: `es.indices.get(index="*")`, a read
returning every index name; the exception on an unreachable cluster is
caught (reported, nothing listed). -/
def list_indices (c : Cluster) : Option (List String) × Cluster × List ESCall :=
  if c.reachable then
    (some c.indices, c, [ESCall.getAll])
  else
    (none, c, [ESCall.getAll])

/-- The fixed name list of `delete_all_indices`. -/
def deleteNames : List String :=
  ["regulations", "permits", "inspections", "compliance_events"]

/-- The loop body of `delete_all_indices`.  The whole loop sits in one
`try`, so a delete call that raises aborts the remaining names. -/
def deleteLoop (c : Cluster) : List String → Cluster × List ESCall
  | [] => (c, [])
  | name :: rest =>
      if c.indices.contains name then
        if c.failDeletes.contains name then
          (c, [ESCall.existsCheck name, ESCall.delete name])
        else
          let c' := { c with indices := c.indices.filter (fun i => i != name) }
          let r := deleteLoop c' rest
          (r.1, ESCall.existsCheck name :: ESCall.delete name :: r.2)
      else
        let r := deleteLoop c rest
        (r.1, ESCall.existsCheck name :: r.2)

/-- `ElasticsearchSetup.delete_all_indices`. -/
def delete_all_indices (c : Cluster) : Cluster × List ESCall :=
  deleteLoop c deleteNames

/-! ## Claim theorems -/

/-- C3: for every cluster state in which `test_connection` reports failure,
`setup_all_indices` returns false, leaves the cluster untouched, and its
trace is the single `info` call — zero index-creation calls are issued. -/
theorem setup_all_indices_conn_failure (d : SchemaDir) (c : Cluster)
    (h : c.reachable = false) :
    setup_all_indices d c = ⟨false, c, [ESCall.info]⟩ := by
  simp [setup_all_indices, test_connection, h]

/-- Witness for `setup_all_indices_conn_failure` at a concrete unreachable
cluster. -/
theorem setup_all_indices_conn_failure_w :
    setup_all_indices ⟨[]⟩ ⟨["old"], false, [], []⟩ =
      ⟨false, ⟨["old"], false, [], []⟩, [ESCall.info]⟩ :=
  setup_all_indices_conn_failure ⟨[]⟩ ⟨["old"], false, [], []⟩ rfl

/-- C6: for every index name whose schema file is absent from the schema
directory, `create_index` returns false, leaves the cluster untouched, and
issues no Elasticsearch call at all. -/
theorem create_index_missing_schema (d : SchemaDir) (c : Cluster)
    (n f : String) (h : d.fileState f = FileState.absent) :
    create_index d c n f = ⟨false, c, []⟩ := by
  simp [create_index, h]

/-- Witness for `create_index_missing_schema`: an empty schema directory. -/
theorem create_index_missing_schema_w :
    create_index ⟨[]⟩ ⟨[], true, [], []⟩ "permits" "permits.json" =
      ⟨false, ⟨[], true, [], []⟩, []⟩ :=
  create_index_missing_schema ⟨[]⟩ ⟨[], true, [], []⟩ "permits" "permits.json" rfl

/-- C9: `create_index` resolves and parses the schema file before checking
index existence, so a missing or unparsable schema makes it return false
with no Elasticsearch call even when the index already exists — the
idempotent return-true branch is unreachable then. -/
theorem create_index_bad_schema_overrides_existing (d : SchemaDir)
    (c : Cluster) (n f : String)
    (hf : d.fileState f = FileState.absent ∨ d.fileState f = FileState.invalid)
    (_hex : c.indices.contains n = true) :
    create_index d c n f = ⟨false, c, []⟩ := by
  rcases hf with h | h <;> simp [create_index, h]

/-- Witness for `create_index_bad_schema_overrides_existing`: the index
`regulations` exists but its schema file is unparsable. -/
theorem create_index_bad_schema_overrides_existing_w :
    create_index ⟨[("regulations.json", FileState.invalid)]⟩
      ⟨["regulations"], true, [], []⟩ "regulations" "regulations.json" =
      ⟨false, ⟨["regulations"], true, [], []⟩, []⟩ :=
  create_index_bad_schema_overrides_existing _ _ _ _ (Or.inr rfl) (by decide)

/-- C10: construction treats an empty-string environment variable like an
unset one: if `ELASTICSEARCH_URL` or `ELASTICSEARCH_API_KEY` is set to `""`,
`__init__` raises the configuration error, with no network call. -/
theorem init_empty_env_var (env : List (String × String))
    (h : getenv env "ELASTICSEARCH_URL" = some "" ∨
         getenv env "ELASTICSEARCH_API_KEY" = some "") :
    ElasticsearchSetup.init env = (Except.error configErrorMsg, []) := by
  rcases h with h | h <;>
    simp [ElasticsearchSetup.init, h, truthy,
      (by decide : ("" : String).isEmpty = true)]

/-- Witness for `init_empty_env_var`: the URL is set to the empty string. -/
theorem init_empty_env_var_w :
    ElasticsearchSetup.init
      [("ELASTICSEARCH_URL", ""), ("ELASTICSEARCH_API_KEY", "tok")] =
      (Except.error configErrorMsg, []) :=
  init_empty_env_var _ (Or.inl rfl)

/-- C4: construction succeeds whenever both `ELASTICSEARCH_URL` and
`ELASTICSEARCH_API_KEY` are set to non-empty values, and fails with the
configuration error — issuing no Elasticsearch call — whenever either is
unset. -/
theorem init_env_check :
    (∀ env url key, getenv env "ELASTICSEARCH_URL" = some url → url ≠ "" →
      getenv env "ELASTICSEARCH_API_KEY" = some key → key ≠ "" →
      ElasticsearchSetup.init env = (Except.ok ⟨url, parseApiKey key⟩, [])) ∧
    (∀ env, getenv env "ELASTICSEARCH_URL" = none ∨
        getenv env "ELASTICSEARCH_API_KEY" = none →
      ElasticsearchSetup.init env = (Except.error configErrorMsg, [])) := by
  constructor
  · intro env url key hu hune hk hkne
    simp [ElasticsearchSetup.init, hu, hk, truthy, String.isEmpty_iff, hune, hkne]
  · intro env h
    rcases h with h | h <;> simp [ElasticsearchSetup.init, h, truthy]

/-- Witness for `init_env_check`: both variables set and non-empty. -/
theorem init_env_check_w :
    ElasticsearchSetup.init
      [("ELASTICSEARCH_URL", "https://es.example"),
       ("ELASTICSEARCH_API_KEY", "tok")] =
      (Except.ok ⟨"https://es.example", parseApiKey "tok"⟩, []) :=
  init_env_check.1 _ "https://es.example" "tok" rfl (by decide) rfl (by decide)

/-- C2 counterexample: the claim's universal "for every index name whose
index already exists in the cluster, create_index returns true" fails when
the schema file is missing: the index `regulations` exists, yet
`create_index` returns false (cf. C9 — the file check runs first). -/
theorem create_index_existing_not_always_true_cex :
    (Cluster.indices ⟨["regulations"], true, [], []⟩).contains "regulations"
        = true ∧
    (create_index ⟨[]⟩ ⟨["regulations"], true, [], []⟩ "regulations"
        "regulations.json").ok = false := by
  decide

/-- C2 (amended): provided the index's schema file exists and parses,
`create_index` is idempotent: a first call on a cluster not holding the
index (and not refusing its creation) succeeds and leaves exactly one copy
of the index present, and a second call in sequence returns true without
issuing any creation call and without changing the cluster. -/
theorem create_index_idempotent (d : SchemaDir) (c : Cluster)
    (n f σ : String) (hf : d.fileState f = FileState.valid σ)
    (hnotin : c.indices.contains n = false)
    (hok : c.failCreates.contains n = false) :
    (create_index d c n f).ok = true ∧
    (create_index d c n f).cluster.indices.count n = 1 ∧
    create_index d (create_index d c n f).cluster n f =
      ⟨true, (create_index d c n f).cluster,
       [ESCall.existsCheck n]⟩ := by
  have hmem : n ∉ c.indices := by simpa using hnotin
  have hmemf : n ∉ c.failCreates := by simpa using hok
  refine ⟨?_, ?_, ?_⟩
  · simp [create_index, hf, hmem, hmemf]
  · simp [create_index, hf, hmem, hmemf, List.count_eq_zero.mpr hmem]
  · simp [create_index, hf, hmem, hmemf]

/-- Witness for `create_index_idempotent` at a concrete directory and an
initially empty cluster. -/
theorem create_index_idempotent_w :
    (create_index ⟨[("permits.json", FileState.valid "{}")]⟩
        ⟨[], true, [], []⟩ "permits" "permits.json").ok = true ∧
    (create_index ⟨[("permits.json", FileState.valid "{}")]⟩
        ⟨[], true, [], []⟩ "permits" "permits.json").cluster.indices.count
        "permits" = 1 ∧
    create_index ⟨[("permits.json", FileState.valid "{}")]⟩
      (create_index ⟨[("permits.json", FileState.valid "{}")]⟩
        ⟨[], true, [], []⟩ "permits" "permits.json").cluster
      "permits" "permits.json" =
      ⟨true,
       (create_index ⟨[("permits.json", FileState.valid "{}")]⟩
         ⟨[], true, [], []⟩ "permits" "permits.json").cluster,
       [ESCall.existsCheck "permits"]⟩ :=
  create_index_idempotent _ _ "permits" "permits.json" "{}" rfl rfl rfl

/-- C1: with a reachable cluster, `setup_all_indices` invokes
`create_index` for all four entries in the fixed order regulations,
permits, inspections, compliance_events — threading the cluster state and
concatenating every call trace, with no short-circuit past a failure — and
its aggregate result is the conjunction of the four per-index results. -/
theorem setup_all_indices_aggregate (d : SchemaDir) (c : Cluster)
    (h : c.reachable = true) :
    setup_all_indices d c =
      (let r1 := create_index d c "regulations" "regulations.json"
       let r2 := create_index d r1.cluster "permits" "permits.json"
       let r3 := create_index d r2.cluster "inspections" "inspections.json"
       let r4 := create_index d r3.cluster "compliance_events"
         "compliance_events.json"
       ⟨r1.ok && (r2.ok && (r3.ok && r4.ok)), r4.cluster,
        ESCall.info :: (r1.calls ++ (r2.calls ++ (r3.calls ++ r4.calls)))⟩) := by
  simp [setup_all_indices, test_connection, indicesList, h,
    Bool.and_assoc, List.append_assoc]

/-- Witness for `setup_all_indices_aggregate`: a reachable empty cluster
whose `permits.json` is missing — the three other indices are still
created and the aggregate result is false. -/
theorem setup_all_indices_aggregate_w :
    setup_all_indices
      ⟨[("regulations.json", FileState.valid "{}"),
        ("inspections.json", FileState.valid "{}"),
        ("compliance_events.json", FileState.valid "{}")]⟩
      ⟨[], true, [], []⟩ =
      (let r1 := create_index
        ⟨[("regulations.json", FileState.valid "{}"),
          ("inspections.json", FileState.valid "{}"),
          ("compliance_events.json", FileState.valid "{}")]⟩
        ⟨[], true, [], []⟩ "regulations" "regulations.json"
       let r2 := create_index
        ⟨[("regulations.json", FileState.valid "{}"),
          ("inspections.json", FileState.valid "{}"),
          ("compliance_events.json", FileState.valid "{}")]⟩
        r1.cluster "permits" "permits.json"
       let r3 := create_index
        ⟨[("regulations.json", FileState.valid "{}"),
          ("inspections.json", FileState.valid "{}"),
          ("compliance_events.json", FileState.valid "{}")]⟩
        r2.cluster "inspections" "inspections.json"
       let r4 := create_index
        ⟨[("regulations.json", FileState.valid "{}"),
          ("inspections.json", FileState.valid "{}"),
          ("compliance_events.json", FileState.valid "{}")]⟩
        r3.cluster "compliance_events" "compliance_events.json"
       ⟨r1.ok && (r2.ok && (r3.ok && r4.ok)), r4.cluster,
        ESCall.info :: (r1.calls ++ (r2.calls ++ (r3.calls ++ r4.calls)))⟩) :=
  setup_all_indices_aggregate _ _ rfl

/-- `splitOnColon` never returns the empty list (Python `str.split` always
yields at least one segment). -/
theorem splitOnColon_ne_nil (cs : List Char) : splitOnColon cs ≠ [] := by
  induction cs with
  | nil => simp [splitOnColon]
  | cons c rest ih =>
    by_cases hc : c = ':'
    · simp [splitOnColon, hc]
    · cases hr : splitOnColon rest with
      | nil => simp [splitOnColon, hc, hr]
      | cons s ss => simp [splitOnColon, hc, hr]

/-- The first segment of `splitOnColon` is the prefix up to the first
colon. -/
theorem splitOnColon_head (cs : List Char) :
    (splitOnColon cs).getD 0 [] = cs.takeWhile (fun ch => ch != ':') := by
  induction cs with
  | nil => simp [splitOnColon]
  | cons c rest ih =>
    by_cases hc : c = ':'
    · simp [splitOnColon, hc]
    · obtain ⟨s, ss, hr⟩ :=
        List.exists_cons_of_ne_nil (splitOnColon_ne_nil rest)
      rw [hr] at ih
      simp [splitOnColon, hc, hr, List.takeWhile_cons]
      simpa using ih

/-- Splitting a list whose first colon sits between `a` and `b` yields `a`
followed by the split of `b`. -/
theorem splitOnColon_append (a b : List Char) (ha : ':' ∉ a) :
    splitOnColon (a ++ ':' :: b) = a :: splitOnColon b := by
  induction a with
  | nil => simp [splitOnColon]
  | cons c a' ih =>
    simp only [List.mem_cons, not_or] at ha
    have hc : c ≠ ':' := fun h => ha.1 h.symm
    simp [splitOnColon, hc, ih ha.2]

/-- The API-key reading C5 asserts: with a colon present, the id is the
part of the key before the (first) colon and the secret the whole part
after it. -/
def parseApiKeyClaimed (key : String) : ApiKeyCred :=
  if key.toList.contains ':' then
    ApiKeyCred.pair
      (String.mk (key.toList.takeWhile (fun ch => ch != ':')))
      (String.mk ((key.toList.dropWhile (fun ch => ch != ':')).drop 1))
  else
    ApiKeyCred.single key

/-- C5 counterexample: on the key `"a:b:c"` the code takes the second
colon-separated segment `"b"` as the secret, while the claim's "part after
the colon" is `"b:c"`; the two disagree. -/
theorem parseApiKey_multicolon_cex :
    parseApiKey "a:b:c" = ApiKeyCred.pair "a" "b" ∧
    parseApiKeyClaimed "a:b:c" = ApiKeyCred.pair "a" "b:c" ∧
    parseApiKey "a:b:c" ≠ parseApiKeyClaimed "a:b:c" := by
  decide

/-- C5 (amended): writing a colon-containing key as `a ++ ":" ++ b` with
no colon in `a`, construction yields the (id, secret) pair whose id is `a`
(the part before the first colon) and whose secret is the prefix of `b` up
to the next colon — i.e. the second colon-separated segment, not all of
`b`; a key with no colon is used whole as the single bearer credential. -/
theorem parseApiKey_amended :
    (∀ a b : List Char, ':' ∉ a →
      parseApiKey (String.mk (a ++ ':' :: b)) =
        ApiKeyCred.pair (String.mk a)
          (String.mk (b.takeWhile (fun ch => ch != ':')))) ∧
    (∀ key : String, key.toList.contains ':' = false →
      parseApiKey key = ApiKeyCred.single key) := by
  constructor
  · intro a b ha
    have hmem : ':' ∈ (String.mk (a ++ ':' :: b)).toList := by
      simp [String.toList]
    have hsplit := splitOnColon_append a b ha
    have hhead := splitOnColon_head b
    simp only [parseApiKey, String.toList] at *
    simp only [List.getD, List.get?_eq_getElem?] at hhead
    simp [hmem, hsplit, hhead]
  · intro key hk
    simp only [parseApiKey, hk]
    simp

/-- Witness for `parseApiKey_amended`: the two-colon key `"id:sec:ret"`
parses to the pair `("id", "sec")`. -/
theorem parseApiKey_amended_w :
    parseApiKey (String.mk (['i', 'd'] ++ ':' :: ['s', 'e', 'c', ':', 'r', 'e', 't'])) =
      ApiKeyCred.pair (String.mk ['i', 'd'])
        (String.mk (['s', 'e', 'c', ':', 'r', 'e', 't'].takeWhile (fun ch => ch != ':'))) :=
  parseApiKey_amended.1 ['i', 'd'] ['s', 'e', 'c', ':', 'r', 'e', 't'] (by decide)

/-- Any delete call issued by the deletion loop targets a name that was in
the cluster when the loop started. -/
theorem deleteLoop_delete_mem (names : List String) (c : Cluster)
    (n : String) (h : ESCall.delete n ∈ (deleteLoop c names).2) :
    n ∈ c.indices := by
  induction names generalizing c with
  | nil => simp [deleteLoop] at h
  | cons name rest ih =>
    by_cases h1 : name ∈ c.indices
    · by_cases h2 : name ∈ c.failDeletes
      · simp [deleteLoop, h1, h2] at h
        exact h ▸ h1
      · simp [deleteLoop, h1, h2] at h
        rcases h with h | h
        · exact h ▸ h1
        · have := ih _ h
          simp only [List.mem_filter] at this
          exact this.1
    · simp [deleteLoop, h1] at h
      exact ih _ h

/-- C7: `delete_all_indices` issues delete calls only for names present in
the cluster; when none of the four fixed names exist it runs through all
four existence checks without error, deleting nothing and leaving the
cluster unchanged; and because the loop sits in a single outer `try`, an
exception raised by one deletion (here: `permits`, with `regulations`
absent) ends the loop with the remaining two names never attempted. -/
theorem delete_all_indices_spec :
    (∀ c n, ESCall.delete n ∈ (delete_all_indices c).2 → n ∈ c.indices) ∧
    (∀ c, (∀ n, n ∈ deleteNames → c.indices.contains n = false) →
      delete_all_indices c = (c, deleteNames.map ESCall.existsCheck)) ∧
    (∀ c, c.indices.contains "regulations" = false →
      c.indices.contains "permits" = true →
      c.failDeletes.contains "permits" = true →
      delete_all_indices c =
        (c, [ESCall.existsCheck "regulations", ESCall.existsCheck "permits",
             ESCall.delete "permits"])) := by
  refine ⟨?_, ?_, ?_⟩
  · intro c n h
    exact deleteLoop_delete_mem deleteNames c n h
  · intro c h
    have h1 : "regulations" ∉ c.indices := by
      simpa using h "regulations" (by simp [deleteNames])
    have h2 : "permits" ∉ c.indices := by
      simpa using h "permits" (by simp [deleteNames])
    have h3 : "inspections" ∉ c.indices := by
      simpa using h "inspections" (by simp [deleteNames])
    have h4 : "compliance_events" ∉ c.indices := by
      simpa using h "compliance_events" (by simp [deleteNames])
    simp [delete_all_indices, deleteNames, deleteLoop, h1, h2, h3, h4]
  · intro c hr hp hf
    have hr' : "regulations" ∉ c.indices := by simpa using hr
    have hp' : "permits" ∈ c.indices := by simpa using hp
    have hf' : "permits" ∈ c.failDeletes := by simpa using hf
    simp [delete_all_indices, deleteNames, deleteLoop, hr', hp', hf']

/-- Witness for `delete_all_indices_spec`: a cluster holding `permits` and
an unrelated index, where deleting `permits` raises — the loop stops after
the failed delete. -/
theorem delete_all_indices_spec_w :
    delete_all_indices ⟨["permits", "other"], true, [], ["permits"]⟩ =
      (⟨["permits", "other"], true, [], ["permits"]⟩,
       [ESCall.existsCheck "regulations", ESCall.existsCheck "permits",
        ESCall.delete "permits"]) :=
  delete_all_indices_spec.2.2 ⟨["permits", "other"], true, [], ["permits"]⟩
    (by decide) (by decide) (by decide)

/-- C8: on a reachable cluster holding only unrelated pre-existing indices
(none of the four names), with all four schema files valid and the cluster
refusing nothing, `setup_all_indices` returns true and appends exactly the
four expected names after the untouched pre-existing ones; a subsequent
`list_indices` reports exactly those names — for an empty cluster, exactly
the four — and `list_indices` never changes the cluster state. -/
theorem setup_list_end_to_end (d : SchemaDir) (pre : List String)
    (σ1 σ2 σ3 σ4 : String)
    (hf1 : d.fileState "regulations.json" = FileState.valid σ1)
    (hf2 : d.fileState "permits.json" = FileState.valid σ2)
    (hf3 : d.fileState "inspections.json" = FileState.valid σ3)
    (hf4 : d.fileState "compliance_events.json" = FileState.valid σ4)
    (hp1 : pre.contains "regulations" = false)
    (hp2 : pre.contains "permits" = false)
    (hp3 : pre.contains "inspections" = false)
    (hp4 : pre.contains "compliance_events" = false) :
    (setup_all_indices d ⟨pre, true, [], []⟩).ok = true ∧
    (setup_all_indices d ⟨pre, true, [], []⟩).cluster.indices =
      pre ++ ["regulations", "permits", "inspections", "compliance_events"] ∧
    list_indices (setup_all_indices d ⟨pre, true, [], []⟩).cluster =
      (some (pre ++ ["regulations", "permits", "inspections",
          "compliance_events"]),
       (setup_all_indices d ⟨pre, true, [], []⟩).cluster,
       [ESCall.getAll]) ∧
    (∀ c : Cluster, (list_indices c).2.1 = c) := by
  have hm1 : "regulations" ∉ pre := by simpa using hp1
  have hm2 : "permits" ∉ pre := by simpa using hp2
  have hm3 : "inspections" ∉ pre := by simpa using hp3
  have hm4 : "compliance_events" ∉ pre := by simpa using hp4
  have hsetup :
      setup_all_indices d ⟨pre, true, [], []⟩ =
        ⟨true,
         ⟨pre ++ ["regulations", "permits", "inspections",
             "compliance_events"], true, [], []⟩,
         [ESCall.info,
          ESCall.existsCheck "regulations", ESCall.create "regulations" σ1,
          ESCall.existsCheck "permits", ESCall.create "permits" σ2,
          ESCall.existsCheck "inspections", ESCall.create "inspections" σ3,
          ESCall.existsCheck "compliance_events",
          ESCall.create "compliance_events" σ4]⟩ := by
    simp [setup_all_indices, test_connection, indicesList, create_index,
      hf1, hf2, hf3, hf4, hm1, hm2, hm3, hm4]
  refine ⟨by rw [hsetup], by rw [hsetup], by rw [hsetup]; simp [list_indices], ?_⟩
  intro c
  by_cases hc : c.reachable <;> simp [list_indices, hc]

/-- Witness for `setup_list_end_to_end`: an initially empty cluster with
the four schema files present — the run succeeds and exactly the four
expected names are listed. -/
theorem setup_list_end_to_end_w :
    (setup_all_indices
        ⟨[("regulations.json", FileState.valid "r"),
          ("permits.json", FileState.valid "p"),
          ("inspections.json", FileState.valid "i"),
          ("compliance_events.json", FileState.valid "e")]⟩
        ⟨[], true, [], []⟩).ok = true ∧
    (setup_all_indices
        ⟨[("regulations.json", FileState.valid "r"),
          ("permits.json", FileState.valid "p"),
          ("inspections.json", FileState.valid "i"),
          ("compliance_events.json", FileState.valid "e")]⟩
        ⟨[], true, [], []⟩).cluster.indices =
      [] ++ ["regulations", "permits", "inspections", "compliance_events"] ∧
    list_indices (setup_all_indices
        ⟨[("regulations.json", FileState.valid "r"),
          ("permits.json", FileState.valid "p"),
          ("inspections.json", FileState.valid "i"),
          ("compliance_events.json", FileState.valid "e")]⟩
        ⟨[], true, [], []⟩).cluster =
      (some ([] ++ ["regulations", "permits", "inspections",
          "compliance_events"]),
       (setup_all_indices
        ⟨[("regulations.json", FileState.valid "r"),
          ("permits.json", FileState.valid "p"),
          ("inspections.json", FileState.valid "i"),
          ("compliance_events.json", FileState.valid "e")]⟩
        ⟨[], true, [], []⟩).cluster,
       [ESCall.getAll]) ∧
    (∀ c : Cluster, (list_indices c).2.1 = c) :=
  setup_list_end_to_end _ [] "r" "p" "i" "e" rfl rfl rfl rfl rfl rfl rfl rfl
